import Mathlib

/-!
Verification development for the mrvn-bot guild playback orchestrator.

The orchestration layer (command handlers and the playback-completion
handler) is translated from `src/mrvn-front-discord/src/frontend.rs`.
The sources of the `mrvn-model` crate (the Guild Model) and of the
`mrvn-back-ytdl` crate internals (the speaker pool / Brain) are not part
of the provided tree, so those collaborators are modelled from the
specification (each such definition is marked `Modelled from the spec:`).
Asynchronous I/O (Discord requests, audio streaming, message dispatch) is
out of the embedding: media resolution results, the user-to-channel
lookup and the success or failure of each `play` attempt enter the
handlers as explicit inputs, and every pool side effect a handler
performs is recorded in an explicit operation trace.
-/

namespace Mrvn

abbrev ChannelId := Nat
abbrev UserId := Nat

/-- Song metadata carried by every queued item
(`mrvn_back_ytdl::SongMetadata`: title, url, requesting user). -/
structure SongMetadata where
  title : String
  url : String
  user_id : UserId
deriving DecidableEq, Repr

/-- A resolved playable item (`mrvn_back_ytdl::Song`). The opaque playable
handle is not represented; only the metadata is observable here. -/
structure Song where
  metadata : SongMetadata
deriving DecidableEq, Repr

/-- Modelled from the spec: `mrvn_back_ytdl::Error` (its source is not in
the tree). `UnsupportedUrl` is matched by name in `frontend.rs`; the
spec's PlaybackError variants are `ConnectFailed` and `StreamFailed`;
`OtherFailure` stands for any remaining backend failure. -/
inductive BackendError
  | UnsupportedUrl
  | ConnectFailed
  | StreamFailed
  | OtherFailure
deriving DecidableEq, Repr

/-- Modelled from the spec: `crate::error::Error` of the frontend (its
source file is not in the tree); the variants listed are the ones
`frontend.rs` constructs. -/
inductive MrvnError
  | NoGuild
  | UnknownCommand (name : String)
  | Backend (e : BackendError)
  | ModelPlayingSpeakerNotDesync
deriving DecidableEq, Repr

/-- Vote kinds accepted by `GuildModel::vote_for_skip` (`mrvn_model::VoteType`). -/
inductive VoteType
  | Skip
  | Stop
deriving DecidableEq, Repr

/-- Result of `GuildModel::vote_for_skip` (`mrvn_model::VoteStatus`). -/
inductive VoteStatus
  | Success
  | AlreadyVoted
  | NeedsMoreVotes (count : Nat)
  | NothingPlaying
deriving DecidableEq, Repr

/-- Result of `GuildModel::next_channel_entry` (`mrvn_model::NextEntry`). -/
inductive NextEntry
  | Entry (song : Song)
  | AlreadyPlaying
  | NoneAvailable
deriving DecidableEq, Repr

/-- Result of `GuildModel::replace_entry` (`mrvn_model::ReplaceStatus`). -/
inductive ReplaceStatus
  | Queued
  | ReplacedInQueue (old : Song)
  | ReplacedCurrent (channel : ChannelId)
deriving DecidableEq, Repr

/-- The channel-membership lookup the frontend consumes
(`crate::model_delegate::ModelDelegate`, source not in the tree).
Modelled from the spec: `current_voice_channel(user) → Option<ChannelId>`
plus an occupancy list per channel for vote thresholds. -/
structure ModelDelegate where
  userVoiceChannel : UserId → Option ChannelId
  channelUsers : ChannelId → List UserId

def ModelDelegate.get_user_voice_channel (d : ModelDelegate) (u : UserId) :
    Option ChannelId :=
  d.userVoiceChannel u

/-- Modelled from the spec: the per-guild Queue/Vote State Machine
(`mrvn_model::GuildModel`, source not in the tree).
`queue` abstracts the model's per-user sub-queues as the selection-order
sequence of reachable items for the channel under consideration (the
spec's round-robin merge); `active` and `stopped` are the per-channel
flags; `playingMeta` holds the currently-playing metadata snapshot per
channel; `votes` records voter identities per (vote-kind, channel). -/
structure GuildModel where
  queue : List Song
  active : List ChannelId
  stopped : List ChannelId
  playingMeta : List (ChannelId × SongMetadata)
  votes : List (VoteType × ChannelId × UserId)
  messageChannel : Option ChannelId
deriving DecidableEq, Repr

def insertChannel (ch : ChannelId) (l : List ChannelId) : List ChannelId :=
  if ch ∈ l then l else ch :: l

/-- Modelled from the spec: `enqueue(user, items)` appends the items to the
user's sub-queue; in the selection-order abstraction they are appended to
the back of the reachable sequence. Always succeeds. -/
def GuildModel.push_entries (m : GuildModel) (_user : UserId) (songs : List Song) :
    GuildModel :=
  { m with queue := m.queue ++ songs }

/-- Modelled from the spec: `set_stopped(channel)`. -/
def GuildModel.set_channel_stopped (m : GuildModel) (ch : ChannelId) : GuildModel :=
  { m with stopped := insertChannel ch m.stopped }

/-- Modelled from the spec: `is_stopped(channel)`. -/
def GuildModel.is_channel_stopped (m : GuildModel) (ch : ChannelId) : Bool :=
  ch ∈ m.stopped

def GuildModel.message_channel (m : GuildModel) : Option ChannelId :=
  m.messageChannel

def GuildModel.set_message_channel (m : GuildModel) (dest : Option ChannelId) :
    GuildModel :=
  { m with messageChannel := dest }

/-- Modelled from the spec: `next_for_channel(channel)` returns
`AlreadyPlaying` when the channel's active flag is set, otherwise selects
the next reachable item (the head of the selection-order sequence), marks
the channel active, clears the stopped marker (a play is being started)
and records the currently-playing snapshot; `NoneAvailable` when nothing
is queued. The delegate parameter is kept for signature fidelity. -/
def GuildModel.next_channel_entry (m : GuildModel) (_d : ModelDelegate)
    (ch : ChannelId) : NextEntry × GuildModel :=
  if ch ∈ m.active then (.AlreadyPlaying, m)
  else
    match m.queue with
    | [] => (.NoneAvailable, m)
    | s :: rest =>
      (.Entry s,
       { m with
          queue := rest
          active := insertChannel ch m.active
          stopped := m.stopped.filter (fun c => c ≠ ch)
          playingMeta := (ch, s.metadata) :: m.playingMeta })

/-- Modelled from the spec: `next_for_channel_after_finish(channel)` — the
same selection as `next_for_channel` but without checking the active flag
(the caller knows the previous playback ended). -/
def GuildModel.next_channel_entry_finished (m : GuildModel) (_d : ModelDelegate)
    (ch : ChannelId) : Option (Song × GuildModel) :=
  match m.queue with
  | [] => none
  | s :: rest =>
    some (s,
      { m with
          queue := rest
          active := insertChannel ch m.active
          stopped := m.stopped.filter (fun c => c ≠ ch)
          playingMeta := (ch, s.metadata) :: m.playingMeta })

/-- First metadata snapshot recorded for a channel (later records shadow
earlier ones because updates are consed on). -/
def GuildModel.playingMetaOf (m : GuildModel) (ch : ChannelId) :
    Option SongMetadata :=
  (m.playingMeta.find? (fun p => p.1 = ch)).map (fun p => p.2)

/-- Index of the last queued item belonging to the user, if any. -/
def lastUserIdx (q : List Song) (u : UserId) : Option Nat :=
  match q.reverse.findIdx? (fun s => s.metadata.user_id = u) with
  | none => none
  | some j => some (q.length - 1 - j)

/-- Modelled from the spec: `replace_latest(user, maybe_channel, item)` —
swap the user's most recent queued-but-not-yet-playing item for `item`
(returning the displaced one); else, if the user's item is the active one
in `maybe_channel`, queue `item` and report `ReplacedCurrent`; else
behave like enqueue and report `Queued`. -/
def GuildModel.replace_entry (m : GuildModel) (u : UserId)
    (maybeCh : Option ChannelId) (item : Song) : ReplaceStatus × GuildModel :=
  match lastUserIdx m.queue u with
  | some i =>
    match m.queue.get? i with
    | some old => (.ReplacedInQueue old, { m with queue := m.queue.set i item })
    | none => (.Queued, { m with queue := m.queue ++ [item] })
  | none =>
    match maybeCh with
    | some ch =>
      match m.playingMetaOf ch with
      | some md =>
        if ch ∈ m.active ∧ md.user_id = u then
          (.ReplacedCurrent ch, { m with queue := m.queue ++ [item] })
        else (.Queued, { m with queue := m.queue ++ [item] })
      | none => (.Queued, { m with queue := m.queue ++ [item] })
    | none => (.Queued, { m with queue := m.queue ++ [item] })

/-- Modelled from the spec: the vote threshold is a function of channel
occupancy, "majority of occupants, minimum 1" (the spec leaves the exact
rounding open; none of the verified claims depends on it). -/
def vote_threshold (d : ModelDelegate) (ch : ChannelId) : Nat :=
  max 1 (((d.channelUsers ch).length + 1) / 2)

/-- Modelled from the spec: `vote(kind, channel, voter)` —
`NothingPlaying` when the channel has no active item; `AlreadyVoted` when
the voter is already recorded for this (channel, kind); otherwise the
vote is recorded and compared against the occupancy-derived threshold:
reaching it consumes the tracker and yields `Success`, else
`NeedsMoreVotes` with the votes remaining. -/
def GuildModel.vote_for_skip (m : GuildModel) (d : ModelDelegate) (t : VoteType)
    (ch : ChannelId) (u : UserId) : VoteStatus × GuildModel :=
  if ch ∈ m.active then
    if (t, ch, u) ∈ m.votes then (.AlreadyVoted, m)
    else
      let votes1 := (t, ch, u) :: m.votes
      let count := (votes1.filter (fun v => v.1 = t ∧ v.2.1 = ch)).length
      let threshold := vote_threshold d ch
      if threshold ≤ count then
        (.Success,
         { m with votes := votes1.filter (fun v => ¬(v.1 = t ∧ v.2.1 = ch)) })
      else (.NeedsMoreVotes (threshold - count), { m with votes := votes1 })
  else (.NothingPlaying, m)

/-- Modelled from the spec: a speaker's playback state. The transient
`Stopping` state is not represented (it immediately becomes `Idle` at
this abstraction level); `Playing`/`Paused` carry the current item's
metadata snapshot. -/
inductive SpeakerPlayState
  | Idle
  | Playing (meta : SongMetadata)
  | Paused (meta : SongMetadata)
deriving DecidableEq, Repr

/-- Modelled from the spec: one speaker of the guild pool — a binding to
at most one channel plus its playback state. -/
structure Speaker where
  channel : Option ChannelId
  state : SpeakerPlayState
deriving DecidableEq, Repr

def Speaker.is_paused (s : Speaker) : Bool :=
  match s.state with
  | .Paused _ => true
  | _ => false

def Speaker.activeMeta (s : Speaker) : Option SongMetadata :=
  match s.state with
  | .Playing md => some md
  | .Paused md => some md
  | .Idle => none

def Speaker.pauseTransition (s : Speaker) : Speaker :=
  match s.state with
  | .Playing md => { s with state := .Paused md }
  | _ => s

def Speaker.unpauseTransition (s : Speaker) : Speaker :=
  match s.state with
  | .Paused md => { s with state := .Playing md }
  | _ => s

/-- Modelled from the spec: the per-guild speaker pool
(`mrvn_back_ytdl::Brain`'s `GuildSpeakersRef`). -/
structure GuildSpeakers where
  speakers : List Speaker
deriving DecidableEq, Repr

def GuildSpeakers.getSpeaker (sp : GuildSpeakers) (i : Nat) : Speaker :=
  (sp.speakers.get? i).getD ⟨none, .Idle⟩

def GuildSpeakers.modifyAt (sp : GuildSpeakers) (i : Nat)
    (f : Speaker → Speaker) : GuildSpeakers :=
  match sp.speakers.get? i with
  | some s => ⟨sp.speakers.set i (f s)⟩
  | none => sp

def findActiveAux (ch : ChannelId) : Nat → List Speaker → Option (Nat × SongMetadata)
  | _, [] => none
  | i, s :: rest =>
    if s.channel = some ch then
      match s.activeMeta with
      | some md => some (i, md)
      | none => findActiveAux ch (i + 1) rest
    else findActiveAux ch (i + 1) rest

/-- Modelled from the spec: `find_active_in(channel)` — the speaker
currently bound and playing or paused in the channel, with a snapshot of
what it is playing (identified here by its pool index). -/
def GuildSpeakers.find_active_in_channel (sp : GuildSpeakers) (ch : ChannelId) :
    Option (Nat × SongMetadata) :=
  findActiveAux ch 0 sp.speakers

def findIdleInAux (ch : ChannelId) : Nat → List Speaker → Option Nat
  | _, [] => none
  | i, s :: rest =>
    if s.channel = some ch ∧ s.state = .Idle then some i
    else findIdleInAux ch (i + 1) rest

def findFreeAux : Nat → List Speaker → Option Nat
  | _, [] => none
  | i, s :: rest => if s.channel = none then some i else findFreeAux (i + 1) rest

/-- Modelled from the spec: `find_to_play_in(channel)` — a speaker already
bound to the channel and idle, or else any free (unbound) speaker; `none`
when every speaker is bound elsewhere and busy. -/
def GuildSpeakers.find_to_play_in_channel (sp : GuildSpeakers) (ch : ChannelId) :
    Option Nat :=
  match findIdleInAux ch 0 sp.speakers with
  | some i => some i
  | none => findFreeAux 0 sp.speakers

def GuildSpeakers.playAt (sp : GuildSpeakers) (i : Nat) (ch : ChannelId)
    (song : Song) : GuildSpeakers :=
  sp.modifyAt i (fun _ => ⟨some ch, .Playing song.metadata⟩)

def GuildSpeakers.stopAt (sp : GuildSpeakers) (i : Nat) : GuildSpeakers :=
  sp.modifyAt i (fun _ => ⟨none, .Idle⟩)

/-- Action messages from `src/mrvn-front-discord/src/message/mod.rs`
(payload fields kept; presentation/formatting omitted). -/
inductive ActionMessage
  | Playing (song_title : String) (song_url : String)
      (voice_channel_id : ChannelId) (user_id : UserId)
  | PlayingResponse (song_title : String) (song_url : String)
      (voice_channel_id : ChannelId)
  | Finished (voice_channel_id : ChannelId)
  | NoSpeakersError (voice_channel_id : ChannelId)
  | UnknownError
deriving DecidableEq, Repr

/-- Response messages from `src/mrvn-front-discord/src/message/mod.rs`. -/
inductive ResponseMessage
  | Queued (song_title : String) (song_url : String)
  | QueuedMultiple (count : Nat)
  | QueuedNoSpeakers (song_title : String) (song_url : String)
  | QueuedMultipleNoSpeakers (count : Nat)
  | Replaced (old_song_title : String) (old_song_url : String)
      (new_song_title : String) (new_song_url : String)
  | ReplaceSkipped (new_song_title : String) (new_song_url : String)
      (old_song_title : String) (old_song_url : String)
      (voice_channel_id : ChannelId)
  | Paused (song_title : String) (song_url : String)
      (voice_channel_id : ChannelId) (user_id : UserId)
  | Skipped (song_title : String) (song_url : String)
      (voice_channel_id : ChannelId) (user_id : UserId)
  | SkipMoreVotesNeeded (song_title : String) (song_url : String)
      (voice_channel_id : ChannelId) (count : Nat)
  | Stopped (song_title : String) (song_url : String)
      (voice_channel_id : ChannelId) (user_id : UserId)
  | StopMoreVotesNeeded (voice_channel_id : ChannelId) (count : Nat)
  | ImageEmbed (image_url : String)
  | NoMatchingSongsError
  | NotInVoiceChannelError
  | UnsupportedSiteError
  | SkipAlreadyVotedError (song_title : String) (song_url : String)
      (voice_channel_id : ChannelId)
  | StopAlreadyVotedError (voice_channel_id : ChannelId)
  | NothingIsQueuedError (voice_channel_id : ChannelId)
  | NothingIsPlayingError (voice_channel_id : ChannelId)
  | AlreadyPlayingError (voice_channel_id : ChannelId)
  | Pet
  | ShinyPet
  | NowPlaying (song_title : String) (song_url : String)
      (voice_channel_id : ChannelId) (user_id : UserId)
deriving DecidableEq, Repr

/-- The type `crate::message::Message`. -/
inductive Message
  | Action (a : ActionMessage)
  | Response (r : ResponseMessage)
deriving DecidableEq, Repr

/-- The type `QueuedSongsMetadata` from `frontend.rs`. -/
inductive QueuedSongsMetadata
  | Single (meta : SongMetadata)
  | Multiple (count : Nat)
deriving DecidableEq, Repr

/-- The queued-style response for the resolved batch, as built inline at
`frontend.rs:297-305` and `frontend.rs:339-347`. -/
def queuedMessage : QueuedSongsMetadata → ResponseMessage
  | .Single md => .Queued md.title md.url
  | .Multiple n => .QueuedMultiple n

/-- The queued-but-no-speakers response, as built inline at
`frontend.rs:320-330`. -/
def queuedNoSpeakersMessage : QueuedSongsMetadata → ResponseMessage
  | .Single md => .QueuedNoSpeakers md.title md.url
  | .Multiple n => .QueuedMultipleNoSpeakers n

deriving instance DecidableEq for Except

/-- One speaker-pool side effect performed by a handler. Operations on a
pool speaker carry its index; `playEnded`/`stopEnded` act on the
re-entrant ended-speaker handle inside a completion notification. -/
inductive SpeakerOp
  | playOp (idx : Nat) (song : Song)
  | pauseOp (idx : Nat)
  | unpauseOp (idx : Nat)
  | stopOp (idx : Nat)
  | playEnded (song : Song)
  | stopEnded
deriving DecidableEq, Repr

/-- Outcome of a command handler: the returned messages or error, the
Guild Model and speaker pool after the command, and the trace of pool
operations performed. -/
structure CmdResult where
  result : Except MrvnError (List Message)
  model : GuildModel
  speakers : GuildSpeakers
  ops : List SpeakerOp
deriving DecidableEq, Repr

/-- Translation of `play_to_speaker` (`frontend.rs:1007-1036`): attempt to play `song` on
the pool speaker `idx` bound to `channel_id`. On failure the channel is
marked stopped in the Guild Model and the backend error is surfaced. The
success or failure of the underlying `play` is the oracle `playOk`
(`none` = started, `some e` = `PlaybackError e`). -/
def play_to_speaker (playOk : Song → Option BackendError) (m : GuildModel)
    (sp : GuildSpeakers) (idx : Nat) (channel_id : ChannelId) (song : Song) :
    Except MrvnError Unit × GuildModel × GuildSpeakers × List SpeakerOp :=
  match playOk song with
  | none => (.ok (), m, sp.playAt idx channel_id song, [.playOp idx song])
  | some why => (.error (.Backend why), m.set_channel_stopped channel_id, sp,
      [.playOp idx song])

/-- Translation of `handle_queue_play_command` (`frontend.rs:247-396`). Media resolution
(`Song::load`) and the delegate are inputs: `loadRes` is the resolution
outcome, `d` the channel lookup. -/
def handle_queue_play_command (d : ModelDelegate)
    (loadRes : Except BackendError (List Song))
    (playOk : Song → Option BackendError) (user_id : UserId)
    (m : GuildModel) (sp : GuildSpeakers) : CmdResult :=
  match loadRes with
  | .error .UnsupportedUrl => ⟨.ok [.Response .UnsupportedSiteError], m, sp, []⟩
  | .error e => ⟨.error (.Backend e), m, sp, []⟩
  | .ok [] => ⟨.ok [.Response .NoMatchingSongsError], m, sp, []⟩
  | .ok (s0 :: srest) =>
    let songs := s0 :: srest
    let metadata := if songs.length = 1 then QueuedSongsMetadata.Single s0.metadata
                    else QueuedSongsMetadata.Multiple songs.length
    let m1 := m.push_entries user_id songs
    match d.get_user_voice_channel user_id with
    | none => ⟨.ok [.Response (queuedMessage metadata)], m1, sp, []⟩
    | some channel_id =>
      match sp.find_to_play_in_channel channel_id with
      | none => ⟨.ok [.Response (queuedNoSpeakersMessage metadata)], m1, sp, []⟩
      | some spIdx =>
        match m1.next_channel_entry d channel_id with
        | (.AlreadyPlaying, m2) => ⟨.ok [.Response (queuedMessage metadata)], m2, sp, []⟩
        | (.NoneAvailable, m2) => ⟨.ok [.Response (queuedMessage metadata)], m2, sp, []⟩
        | (.Entry next_song, m2) =>
          let next_metadata := next_song.metadata
          match play_to_speaker playOk m2 sp spIdx channel_id next_song with
          | (.error e, m3, sp3, ops) => ⟨.error e, m3, sp3, ops⟩
          | (.ok _, m3, sp3, ops) =>
            match metadata with
            | .Single song_metadata =>
              if next_metadata.url = song_metadata.url then
                ⟨.ok [.Action (.PlayingResponse song_metadata.title
                    song_metadata.url channel_id)], m3, sp3, ops⟩
              else
                ⟨.ok [.Response (.Queued song_metadata.title song_metadata.url),
                      .Action (.Playing next_metadata.title next_metadata.url
                          channel_id next_metadata.user_id)], m3, sp3, ops⟩
            | .Multiple count =>
              ⟨.ok [.Response (.QueuedMultiple count),
                    .Action (.Playing next_metadata.title next_metadata.url
                        channel_id next_metadata.user_id)], m3, sp3, ops⟩

/-- Translation of `handle_unpause_command` (`frontend.rs:398-480`, the `resume`
command). -/
def handle_unpause_command (d : ModelDelegate)
    (playOk : Song → Option BackendError) (user_id : UserId)
    (m : GuildModel) (sp : GuildSpeakers) : CmdResult :=
  match d.get_user_voice_channel user_id with
  | none => ⟨.ok [.Response .NotInVoiceChannelError], m, sp, []⟩
  | some channel_id =>
    match sp.find_active_in_channel channel_id with
    | some (idx, active_metadata) =>
      if (sp.getSpeaker idx).is_paused then
        ⟨.ok [.Action (.Playing active_metadata.title active_metadata.url
            channel_id active_metadata.user_id)],
         m, sp.modifyAt idx Speaker.unpauseTransition, [.unpauseOp idx]⟩
      else
        ⟨.ok [.Response (.AlreadyPlayingError channel_id)], m, sp, []⟩
    | none =>
      match sp.find_to_play_in_channel channel_id with
      | none => ⟨.ok [.Action (.NoSpeakersError channel_id)], m, sp, []⟩
      | some spIdx =>
        match m.next_channel_entry d channel_id with
        | (.AlreadyPlaying, m1) =>
          ⟨.ok [.Response (.NothingIsQueuedError channel_id)], m1, sp, []⟩
        | (.NoneAvailable, m1) =>
          ⟨.ok [.Response (.NothingIsQueuedError channel_id)], m1, sp, []⟩
        | (.Entry next_song, m1) =>
          let next_metadata := next_song.metadata
          match play_to_speaker playOk m1 sp spIdx channel_id next_song with
          | (.error e, m2, sp2, ops) => ⟨.error e, m2, sp2, ops⟩
          | (.ok _, m2, sp2, ops) =>
            ⟨.ok [.Action (.Playing next_metadata.title next_metadata.url
                channel_id next_metadata.user_id)], m2, sp2, ops⟩

/-- Outcome of the pause handler (the Rust function receives no Guild
Model reference, so none is threaded). -/
structure PauseResult where
  result : Except MrvnError (List Message)
  speakers : GuildSpeakers
  ops : List SpeakerOp
deriving DecidableEq, Repr

/-- Translation of `handle_pause_command` (`frontend.rs:613-664`). -/
def handle_pause_command (d : ModelDelegate) (user_id : UserId)
    (sp : GuildSpeakers) : PauseResult :=
  match d.get_user_voice_channel user_id with
  | none => ⟨.ok [.Response .NotInVoiceChannelError], sp, []⟩
  | some channel_id =>
    match sp.find_active_in_channel channel_id with
    | some (idx, active_metadata) =>
      if (sp.getSpeaker idx).is_paused then
        ⟨.ok [.Response (.NothingIsPlayingError channel_id)], sp, []⟩
      else
        ⟨.ok [.Response (.Paused active_metadata.title active_metadata.url
            channel_id active_metadata.user_id)],
         sp.modifyAt idx Speaker.pauseTransition, [.pauseOp idx]⟩
    | none => ⟨.ok [.Response (.NothingIsPlayingError channel_id)], sp, []⟩

/-- Translation of `handle_skip_command` (`frontend.rs:706-775`). -/
def handle_skip_command (d : ModelDelegate) (user_id : UserId)
    (m : GuildModel) (sp : GuildSpeakers) : CmdResult :=
  match d.get_user_voice_channel user_id with
  | none => ⟨.ok [.Response .NotInVoiceChannelError], m, sp, []⟩
  | some channel_id =>
    let voted := m.vote_for_skip d .Skip channel_id user_id
    let skip_status := voted.1
    let m1 := voted.2
    match skip_status, sp.find_active_in_channel channel_id with
    | .Success, some (idx, active_metadata) =>
      ⟨.ok [.Response (.Skipped active_metadata.title active_metadata.url
          channel_id active_metadata.user_id)], m1, sp.stopAt idx, [.stopOp idx]⟩
    | .AlreadyVoted, some (_, active_metadata) =>
      ⟨.ok [.Response (.SkipAlreadyVotedError active_metadata.title
          active_metadata.url channel_id)], m1, sp, []⟩
    | .NeedsMoreVotes count, some (_, active_metadata) =>
      ⟨.ok [.Response (.SkipMoreVotesNeeded active_metadata.title
          active_metadata.url channel_id count)], m1, sp, []⟩
    | .NothingPlaying, _ =>
      ⟨.ok [.Response (.NothingIsPlayingError channel_id)], m1, sp, []⟩
    | _, none => ⟨.error .ModelPlayingSpeakerNotDesync, m1, sp, []⟩

/-- Translation of `handle_stop_command` (`frontend.rs:777-844`). -/
def handle_stop_command (d : ModelDelegate) (user_id : UserId)
    (m : GuildModel) (sp : GuildSpeakers) : CmdResult :=
  match d.get_user_voice_channel user_id with
  | none => ⟨.ok [.Response .NotInVoiceChannelError], m, sp, []⟩
  | some channel_id =>
    let voted := m.vote_for_skip d .Stop channel_id user_id
    let m1 := voted.2
    match voted.1 with
    | .Success =>
      match sp.find_active_in_channel channel_id with
      | some (idx, active_metadata) =>
        ⟨.ok [.Response (.Stopped active_metadata.title active_metadata.url
            channel_id active_metadata.user_id)],
         m1.set_channel_stopped channel_id, sp.stopAt idx, [.stopOp idx]⟩
      | none => ⟨.error .ModelPlayingSpeakerNotDesync, m1, sp, []⟩
    | .AlreadyVoted =>
      ⟨.ok [.Response (.StopAlreadyVotedError channel_id)], m1, sp, []⟩
    | .NeedsMoreVotes count =>
      ⟨.ok [.Response (.StopMoreVotesNeeded channel_id count)], m1, sp, []⟩
    | .NothingPlaying =>
      ⟨.ok [.Response (.NothingIsPlayingError channel_id)], m1, sp, []⟩

/-- Outcome of the replace handler. Besides the fields of `CmdResult`,
`queuedModel` and `replaceStatus` record, for verification, the Guild
Model right after the `replace_entry`/`push_entries` phase and the status
`replace_entry` reported (`none` when resolution failed before that
phase); they are snapshots of values the Rust function binds, not extra
behaviour. -/
structure ReplaceResult where
  result : Except MrvnError (List Message)
  model : GuildModel
  speakers : GuildSpeakers
  ops : List SpeakerOp
  queuedModel : Option GuildModel
  replaceStatus : Option ReplaceStatus
deriving DecidableEq, Repr

/-- Translation of `handle_replace_command` (`frontend.rs:482-611`). -/
def handle_replace_command (d : ModelDelegate)
    (loadRes : Except BackendError (List Song))
    (playOk : Song → Option BackendError) (user_id : UserId)
    (m : GuildModel) (sp : GuildSpeakers) : ReplaceResult :=
  match loadRes with
  | .error .UnsupportedUrl =>
    ⟨.ok [.Response .UnsupportedSiteError], m, sp, [], none, none⟩
  | .error e => ⟨.error (.Backend e), m, sp, [], none, none⟩
  | .ok [] => ⟨.ok [.Response .NoMatchingSongsError], m, sp, [], none, none⟩
  | .ok (song :: songs_rest) =>
    let song_metadata := song.metadata
    let maybe_channel_id := d.get_user_voice_channel user_id
    let replaced := m.replace_entry user_id maybe_channel_id song
    let replace_status := replaced.1
    let m2 := replaced.2.push_entries user_id songs_rest
    match replace_status with
    | .Queued =>
      ⟨.ok [.Response (.Queued song_metadata.title song_metadata.url)],
       m2, sp, [], some m2, some .Queued⟩
    | .ReplacedInQueue old_song =>
      ⟨.ok [.Response (.Replaced old_song.metadata.title old_song.metadata.url
          song_metadata.title song_metadata.url)],
       m2, sp, [], some m2, some (.ReplacedInQueue old_song)⟩
    | .ReplacedCurrent channel_id =>
      match sp.find_active_in_channel channel_id with
      | none =>
        ⟨.error .ModelPlayingSpeakerNotDesync, m2, sp, [], some m2,
         some (.ReplacedCurrent channel_id)⟩
      | some (idx, playing_metadata) =>
        match m2.next_channel_entry_finished d channel_id with
        | none =>
          ⟨.ok [.Response (.NothingIsQueuedError channel_id)], m2, sp, [],
           some m2, some (.ReplacedCurrent channel_id)⟩
        | some (next_song, m3) =>
          let next_metadata := next_song.metadata
          match play_to_speaker playOk m3 sp idx channel_id next_song with
          | (.error e, m4, sp4, ops) =>
            ⟨.error e, m4, sp4, ops, some m2, some (.ReplacedCurrent channel_id)⟩
          | (.ok _, m4, sp4, ops) =>
            if next_metadata.url = song_metadata.url then
              ⟨.ok [.Action (.PlayingResponse song_metadata.title
                  song_metadata.url channel_id)],
               m4, sp4, ops, some m2, some (.ReplacedCurrent channel_id)⟩
            else
              ⟨.ok [.Response (.ReplaceSkipped song_metadata.title
                    song_metadata.url playing_metadata.title
                    playing_metadata.url channel_id),
                    .Action (.Playing next_metadata.title next_metadata.url
                        channel_id next_metadata.user_id)],
               m4, sp4, ops, some m2, some (.ReplacedCurrent channel_id)⟩

/-- Outcome of a completion notification: the messages the handler would
post (or an error), the Guild Model afterwards, the ended-speaker
operation trace, and the sequence of play attempts made on the ended
speaker with their outcomes (`true` = started). -/
structure ContinueResult where
  result : Except MrvnError (List Message)
  model : GuildModel
  ops : List SpeakerOp
  attempts : List (Song × Bool)
deriving DecidableEq, Repr

theorem next_finished_queue_lt (m : GuildModel) (d : ModelDelegate)
    (ch : ChannelId) (s : Song) (m' : GuildModel)
    (h : m.next_channel_entry_finished d ch = some (s, m')) :
    m'.queue.length < m.queue.length := by
  cases hq : m.queue with
  | nil => simp [GuildModel.next_channel_entry_finished, hq] at h
  | cons a t =>
    simp [GuildModel.next_channel_entry_finished, hq] at h
    obtain ⟨-, h2⟩ := h
    subst h2
    simp [hq]

/-- The retry loop of `continue_channel_playback`
(`frontend.rs:965-1004`): pull `next_channel_entry_finished`, attempt
`play` on the ended speaker; a failed attempt is logged and the next item
pulled; when an item starts, report Playing; when the queue is exhausted,
stop the speaker and report Finished. -/
def continuePlayLoop (playOk : Song → Option BackendError) (d : ModelDelegate)
    (ch : ChannelId) (m : GuildModel) : ContinueResult :=
  match h : m.next_channel_entry_finished d ch with
  | none => ⟨.ok [.Action (.Finished ch)], m, [.stopEnded], []⟩
  | some (song, m') =>
    match playOk song with
    | none =>
      ⟨.ok [.Action (.Playing song.metadata.title song.metadata.url ch
          song.metadata.user_id)],
       m', [.playEnded song], [(song, true)]⟩
    | some _why =>
      let r := continuePlayLoop playOk d ch m'
      ⟨r.result, r.model, .playEnded song :: r.ops, (song, false) :: r.attempts⟩
termination_by m.queue.length
decreasing_by exact next_finished_queue_lt m d ch song m' h

/-- Translation of `continue_channel_playback` (`frontend.rs:937-1005`): a moved speaker
is an implicit stop of the started channel; a stopped channel releases
the speaker; otherwise the retry loop runs. The delegate is an input
(its construction cannot fail in the embedding). -/
def continue_channel_playback (playOk : Song → Option BackendError)
    (d : ModelDelegate) (started_channel_id current_channel_id : ChannelId)
    (m : GuildModel) : ContinueResult :=
  if started_channel_id ≠ current_channel_id then
    ⟨.ok [], m.set_channel_stopped started_channel_id, [.stopEnded], []⟩
  else if m.is_channel_stopped current_channel_id then
    ⟨.ok [], m, [.stopEnded], []⟩
  else
    continuePlayLoop playOk d current_channel_id m

/-- The state the completion notification observes on the ended speaker
(`frontend.rs:874-875`: the channel the speaker is currently bound to and
the metadata of the item that just ended). -/
structure SpeakerEndedState where
  channel_id : Option ChannelId
  ended_metadata : Option SongMetadata
deriving DecidableEq, Repr

/-- Translation of `handle_playback_ended` (`frontend.rs:862-935`), its decision part:
when the ended speaker is still in a channel, continue playback there;
when it left voice entirely, treat as a forced stop of the started
channel and report Stopped only when ended-item metadata is available.
(The dispatch of the computed messages to the message channel is I/O and
outside the embedding.) -/
def handle_playback_ended (playOk : Song → Option BackendError)
    (d : ModelDelegate) (started_channel_id : ChannelId)
    (st : SpeakerEndedState) (m : GuildModel) : ContinueResult :=
  match st.channel_id with
  | some channel_id =>
    continue_channel_playback playOk d started_channel_id channel_id m
  | none =>
    let m1 := m.set_channel_stopped started_channel_id
    match st.ended_metadata with
    | some active_metadata =>
      ⟨.ok [.Response (.Stopped active_metadata.title active_metadata.url
          started_channel_id active_metadata.user_id)], m1, [.stopEnded], []⟩
    | none => ⟨.ok [], m1, [.stopEnded], []⟩

/-! ## Supporting lemmas -/

/-- The model produced by one successful pull of
`next_channel_entry_finished`. -/
def popModel (m : GuildModel) (ch : ChannelId) (s : Song) (rest : List Song) :
    GuildModel :=
  { m with
      queue := rest
      active := insertChannel ch m.active
      stopped := m.stopped.filter (fun c => c ≠ ch)
      playingMeta := (ch, s.metadata) :: m.playingMeta }

theorem next_finished_nil (m : GuildModel) (d : ModelDelegate) (ch : ChannelId)
    (h : m.queue = []) : m.next_channel_entry_finished d ch = none := by
  simp [GuildModel.next_channel_entry_finished, h]

theorem next_finished_cons (m : GuildModel) (d : ModelDelegate) (ch : ChannelId)
    (s : Song) (rest : List Song) (h : m.queue = s :: rest) :
    m.next_channel_entry_finished d ch = some (s, popModel m ch s rest) := by
  simp [GuildModel.next_channel_entry_finished, h, popModel]

theorem continuePlayLoop_nil (playOk : Song → Option BackendError)
    (d : ModelDelegate) (ch : ChannelId) (m : GuildModel) (hq : m.queue = []) :
    continuePlayLoop playOk d ch m =
      ⟨.ok [.Action (.Finished ch)], m, [.stopEnded], []⟩ := by
  rw [continuePlayLoop]
  split
  · rfl
  · rename_i song m' heq
    rw [next_finished_nil m d ch hq] at heq
    cases heq

theorem continuePlayLoop_cons (playOk : Song → Option BackendError)
    (d : ModelDelegate) (ch : ChannelId) (m : GuildModel) (s : Song)
    (rest : List Song) (hq : m.queue = s :: rest) :
    continuePlayLoop playOk d ch m =
      match playOk s with
      | none =>
        ⟨.ok [.Action (.Playing s.metadata.title s.metadata.url ch
            s.metadata.user_id)],
         popModel m ch s rest, [.playEnded s], [(s, true)]⟩
      | some _ =>
        let r := continuePlayLoop playOk d ch (popModel m ch s rest)
        ⟨r.result, r.model, .playEnded s :: r.ops, (s, false) :: r.attempts⟩ := by
  rw [continuePlayLoop]
  split
  · rename_i heq
    rw [next_finished_cons m d ch s rest hq] at heq
    cases heq
  · rename_i song m' heq
    rw [next_finished_cons m d ch s rest hq] at heq
    injection heq with heq2
    injection heq2 with hsong hm'
    subst hsong
    subst hm'
    rfl

theorem continuePlayLoop_exhausted (playOk : Song → Option BackendError)
    (d : ModelDelegate) (ch : ChannelId) :
    ∀ (q : List Song) (m : GuildModel), m.queue = q →
    (∀ t ∈ q, playOk t ≠ none) →
    (continuePlayLoop playOk d ch m).result = .ok [.Action (.Finished ch)] ∧
    (continuePlayLoop playOk d ch m).model.queue = [] ∧
    SpeakerOp.stopEnded ∈ (continuePlayLoop playOk d ch m).ops := by
  intro q
  induction q with
  | nil =>
    intro m hq _
    rw [continuePlayLoop_nil playOk d ch m hq]
    exact ⟨rfl, hq, by simp⟩
  | cons t q' ih =>
    intro m hq hfail
    rw [continuePlayLoop_cons playOk d ch m t q' hq]
    cases hpt : playOk t with
    | none => exact absurd hpt (hfail t (by simp))
    | some e =>
      have hrec := ih (popModel m ch t q') (by simp [popModel])
        (fun u hu => hfail u (by simp [hu]))
      simpa using ⟨hrec.1, hrec.2.1, hrec.2.2⟩

theorem continuePlayLoop_first_success (playOk : Song → Option BackendError)
    (d : ModelDelegate) (ch : ChannelId) :
    ∀ (q₁ : List Song) (m : GuildModel) (s : Song) (q₂ : List Song),
    m.queue = q₁ ++ s :: q₂ →
    (∀ t ∈ q₁, playOk t ≠ none) → playOk s = none →
    (continuePlayLoop playOk d ch m).result =
      .ok [.Action (.Playing s.metadata.title s.metadata.url ch
          s.metadata.user_id)] ∧
    (continuePlayLoop playOk d ch m).model.queue = q₂ ∧
    (continuePlayLoop playOk d ch m).ops =
      q₁.map (fun t => SpeakerOp.playEnded t) ++ [SpeakerOp.playEnded s] ∧
    (continuePlayLoop playOk d ch m).attempts =
      q₁.map (fun t => (t, false)) ++ [(s, true)] := by
  intro q₁
  induction q₁ with
  | nil =>
    intro m s q₂ hq hfail hs
    rw [continuePlayLoop_cons playOk d ch m s q₂ (by simpa using hq), hs]
    exact ⟨rfl, by simp [popModel], by simp, by simp⟩
  | cons t q₁' ih =>
    intro m s q₂ hq hfail hs
    rw [continuePlayLoop_cons playOk d ch m t (q₁' ++ s :: q₂) (by simpa using hq)]
    cases hpt : playOk t with
    | none => exact absurd hpt (hfail t (by simp))
    | some e =>
      have hrec := ih (popModel m ch t (q₁' ++ s :: q₂)) s q₂
        (by simp [popModel]) (fun u hu => hfail u (by simp [hu])) hs
      simp only []
      exact ⟨hrec.1, hrec.2.1, by simp [hrec.2.2.1], by simp [hrec.2.2.2]⟩

theorem filter_false_attempts (l : List Song) :
    (l.map (fun t => (t, false))).filter (fun a : Song × Bool => a.2) = [] := by
  induction l with
  | nil => rfl
  | cons t l' ih => simp [ih]

/-! ## Claims -/

/-- Claim C1: for a completion notification whose speaker is still in the
channel playback started in and whose channel is not stopped, the handler
repeatedly pulls items via `next_channel_entry_finished` and attempts
play; failed items are not returned to the queue and the next item is
pulled, so when the first success is preceded only by failures, exactly
one play succeeds (that item) and the failed items are gone from the
queue; when every item fails, the queue is exhausted, the speaker is
stopped and a Finished message is reported. -/
theorem completion_retries_until_success :
    (∀ (playOk : Song → Option BackendError) (d : ModelDelegate)
       (ch : ChannelId) (m : GuildModel) (q₁ : List Song) (s : Song)
       (q₂ : List Song),
       m.queue = q₁ ++ s :: q₂ →
       (∀ t ∈ q₁, playOk t ≠ none) →
       playOk s = none →
       m.is_channel_stopped ch = false →
       (continue_channel_playback playOk d ch ch m).result =
         .ok [.Action (.Playing s.metadata.title s.metadata.url ch
             s.metadata.user_id)] ∧
       (continue_channel_playback playOk d ch ch m).attempts =
         q₁.map (fun t => (t, false)) ++ [(s, true)] ∧
       (((continue_channel_playback playOk d ch ch m).attempts.filter
           (fun a => a.2)).length = 1) ∧
       (continue_channel_playback playOk d ch ch m).model.queue = q₂) ∧
    (∀ (playOk : Song → Option BackendError) (d : ModelDelegate)
       (ch : ChannelId) (m : GuildModel),
       (∀ t ∈ m.queue, playOk t ≠ none) →
       m.is_channel_stopped ch = false →
       (continue_channel_playback playOk d ch ch m).result =
         .ok [.Action (.Finished ch)] ∧
       (continue_channel_playback playOk d ch ch m).model.queue = [] ∧
       SpeakerOp.stopEnded ∈ (continue_channel_playback playOk d ch ch m).ops) := by
  have hloop : ∀ (playOk : Song → Option BackendError) (d : ModelDelegate)
      (ch : ChannelId) (m : GuildModel), m.is_channel_stopped ch = false →
      continue_channel_playback playOk d ch ch m = continuePlayLoop playOk d ch m := by
    intro playOk d ch m h
    simp [continue_channel_playback, h]
  constructor
  · intro playOk d ch m q₁ s q₂ hq hfail hs hstop
    rw [hloop playOk d ch m hstop]
    have h := continuePlayLoop_first_success playOk d ch q₁ m s q₂ hq hfail hs
    refine ⟨h.1, h.2.2.2, ?_, h.2.1⟩
    rw [h.2.2.2]
    simp [List.filter_append, filter_false_attempts]
  · intro playOk d ch m hfail hstop
    rw [hloop playOk d ch m hstop]
    exact continuePlayLoop_exhausted playOk d ch m.queue m rfl hfail

/-- Witness for `completion_retries_until_success`: a queue of three items
where the first two fail play and the third succeeds yields exactly one
successful play (the third item) and an empty remaining queue; a queue
whose single item always fails ends with a Finished report. -/
theorem completion_retries_until_success_witness :
    (continue_channel_playback
        (fun s => if s.metadata.user_id = 3 then none else some .StreamFailed)
        ⟨fun _ => some 1, fun _ => [1]⟩ 1 1
        ⟨[⟨⟨"a", "ua", 1⟩⟩, ⟨⟨"b", "ub", 2⟩⟩, ⟨⟨"c", "uc", 3⟩⟩],
         [1], [], [], [], none⟩).result =
      .ok [.Action (.Playing "c" "uc" 1 3)] ∧
    (continue_channel_playback
        (fun s => if s.metadata.user_id = 3 then none else some .StreamFailed)
        ⟨fun _ => some 1, fun _ => [1]⟩ 1 1
        ⟨[⟨⟨"a", "ua", 1⟩⟩, ⟨⟨"b", "ub", 2⟩⟩, ⟨⟨"c", "uc", 3⟩⟩],
         [1], [], [], [], none⟩).attempts =
      [(⟨⟨"a", "ua", 1⟩⟩, false), (⟨⟨"b", "ub", 2⟩⟩, false),
       (⟨⟨"c", "uc", 3⟩⟩, true)] ∧
    ((continue_channel_playback
        (fun s => if s.metadata.user_id = 3 then none else some .StreamFailed)
        ⟨fun _ => some 1, fun _ => [1]⟩ 1 1
        ⟨[⟨⟨"a", "ua", 1⟩⟩, ⟨⟨"b", "ub", 2⟩⟩, ⟨⟨"c", "uc", 3⟩⟩],
         [1], [], [], [], none⟩).attempts.filter (fun a => a.2)).length = 1 ∧
    (continue_channel_playback
        (fun s => if s.metadata.user_id = 3 then none else some .StreamFailed)
        ⟨fun _ => some 1, fun _ => [1]⟩ 1 1
        ⟨[⟨⟨"a", "ua", 1⟩⟩, ⟨⟨"b", "ub", 2⟩⟩, ⟨⟨"c", "uc", 3⟩⟩],
         [1], [], [], [], none⟩).model.queue = [] ∧
    (continue_channel_playback (fun _ => some .StreamFailed)
        ⟨fun _ => some 1, fun _ => [1]⟩ 1 1
        ⟨[⟨⟨"a", "ua", 1⟩⟩], [1], [], [], [], none⟩).result =
      .ok [.Action (.Finished 1)] := by
  have h1 := completion_retries_until_success.1
    (fun s => if s.metadata.user_id = 3 then none else some .StreamFailed)
    ⟨fun _ => some 1, fun _ => [1]⟩ 1
    ⟨[⟨⟨"a", "ua", 1⟩⟩, ⟨⟨"b", "ub", 2⟩⟩, ⟨⟨"c", "uc", 3⟩⟩], [1], [], [], [], none⟩
    [⟨⟨"a", "ua", 1⟩⟩, ⟨⟨"b", "ub", 2⟩⟩] ⟨⟨"c", "uc", 3⟩⟩ [] rfl
    (by decide) rfl rfl
  have h2 := completion_retries_until_success.2 (fun _ => some .StreamFailed)
    ⟨fun _ => some 1, fun _ => [1]⟩ 1
    ⟨[⟨⟨"a", "ua", 1⟩⟩], [1], [], [], [], none⟩ (by decide) rfl
  exact ⟨h1.1, h1.2.1, h1.2.2.1, h1.2.2.2, h2.1⟩

/-- Claim C2: for a completion notification whose speaker is still in the
channel playback started in and whose channel is marked stopped, the
handler releases the speaker (stop) and starts no queued item, returning
no playback messages, even when items are queued for the channel. -/
theorem stop_suppresses_auto_advance (playOk : Song → Option BackendError)
    (d : ModelDelegate) (ch : ChannelId) (m : GuildModel)
    (h : m.is_channel_stopped ch = true) :
    continue_channel_playback playOk d ch ch m = ⟨.ok [], m, [.stopEnded], []⟩ := by
  simp [continue_channel_playback, h]

/-- Witness for `stop_suppresses_auto_advance`: a stopped channel with an
item still queued. -/
theorem stop_suppresses_auto_advance_witness :
    continue_channel_playback (fun _ => none) ⟨fun _ => some 1, fun _ => [1]⟩ 1 1
        ⟨[⟨⟨"a", "ua", 1⟩⟩], [1], [1], [], [], none⟩ =
      ⟨.ok [], ⟨[⟨⟨"a", "ua", 1⟩⟩], [1], [1], [], [], none⟩, [.stopEnded], []⟩ ∧
    (⟨[⟨⟨"a", "ua", 1⟩⟩], [1], [1], [], [], none⟩ : GuildModel).queue ≠ [] := by
  exact ⟨stop_suppresses_auto_advance _ _ _ _ (by decide), by decide⟩

/-- Claim C3: for a completion notification where the speaker's current
channel differs from the channel playback started in, the handler marks
the started channel stopped, releases the speaker, and does not
auto-advance: no item is pulled (the queue is untouched) and no play is
attempted in either channel. -/
theorem moved_speaker_implicit_stop (playOk : Song → Option BackendError)
    (d : ModelDelegate) (started current : ChannelId) (m : GuildModel)
    (h : started ≠ current) :
    continue_channel_playback playOk d started current m =
      ⟨.ok [], m.set_channel_stopped started, [.stopEnded], []⟩ ∧
    (m.set_channel_stopped started).queue = m.queue := by
  exact ⟨by simp [continue_channel_playback, h], rfl⟩

/-- Witness for `moved_speaker_implicit_stop`: completion in channel 2 for
playback started in channel 1, with an item queued. -/
theorem moved_speaker_implicit_stop_witness :
    continue_channel_playback (fun _ => none) ⟨fun _ => some 1, fun _ => [1]⟩ 1 2
        ⟨[⟨⟨"a", "ua", 1⟩⟩], [2], [], [], [], none⟩ =
      ⟨.ok [], GuildModel.set_channel_stopped
          ⟨[⟨⟨"a", "ua", 1⟩⟩], [2], [], [], [], none⟩ 1, [.stopEnded], []⟩ ∧
    (GuildModel.set_channel_stopped
        ⟨[⟨⟨"a", "ua", 1⟩⟩], [2], [], [], [], none⟩ 1).queue =
      (⟨[⟨⟨"a", "ua", 1⟩⟩], [2], [], [], [], none⟩ : GuildModel).queue := by
  exact moved_speaker_implicit_stop _ _ _ _ _ (by decide)

/-- Claim C5: on the initial play attempt for a fresh command, a playback
error marks the channel stopped in the Guild Model, surfaces the error to
the caller, and makes exactly one attempt on that item (no retry of the
same item by this command). -/
theorem initial_play_failure_surfaced (playOk : Song → Option BackendError)
    (m : GuildModel) (sp : GuildSpeakers) (idx : Nat) (ch : ChannelId)
    (song : Song) (e : BackendError) (h : playOk song = some e) :
    play_to_speaker playOk m sp idx ch song =
      (.error (.Backend e), m.set_channel_stopped ch, sp, [.playOp idx song]) := by
  simp [play_to_speaker, h]

/-- Witness for `initial_play_failure_surfaced`. -/
theorem initial_play_failure_surfaced_witness :
    play_to_speaker (fun _ => some .ConnectFailed)
        ⟨[], [], [], [], [], none⟩ ⟨[⟨none, .Idle⟩]⟩ 0 1 ⟨⟨"a", "ua", 1⟩⟩ =
      (.error (.Backend .ConnectFailed),
       GuildModel.set_channel_stopped ⟨[], [], [], [], [], none⟩ 1,
       ⟨[⟨none, .Idle⟩]⟩, [.playOp 0 ⟨⟨"a", "ua", 1⟩⟩]) := by
  exact initial_play_failure_surfaced _ _ _ _ _ _ _ rfl

/-- Claim C9: for a completion notification whose speaker is no longer in
any voice channel, the handler marks the started channel stopped,
releases the speaker, reports a Stopped message exactly when ended-item
metadata is available (no message otherwise), and plays no further item
(no play operation, no attempt). -/
theorem speaker_left_voice_forced_stop (playOk : Song → Option BackendError)
    (d : ModelDelegate) (started : ChannelId) (st : SpeakerEndedState)
    (m : GuildModel) (h : st.channel_id = none) :
    handle_playback_ended playOk d started st m =
      ⟨.ok (match st.ended_metadata with
            | some md => [.Response (.Stopped md.title md.url started md.user_id)]
            | none => []),
       m.set_channel_stopped started, [.stopEnded], []⟩ := by
  cases hm : st.ended_metadata <;> simp [handle_playback_ended, h, hm]

/-- Witness for `speaker_left_voice_forced_stop`: applied both with and
without ended-item metadata. -/
theorem speaker_left_voice_forced_stop_witness :
    handle_playback_ended (fun _ => none) ⟨fun _ => some 1, fun _ => [1]⟩ 1
        ⟨none, some ⟨"a", "ua", 7⟩⟩ ⟨[], [], [], [], [], none⟩ =
      ⟨.ok [.Response (.Stopped "a" "ua" 1 7)],
       GuildModel.set_channel_stopped ⟨[], [], [], [], [], none⟩ 1,
       [.stopEnded], []⟩ ∧
    handle_playback_ended (fun _ => none) ⟨fun _ => some 1, fun _ => [1]⟩ 1
        ⟨none, none⟩ ⟨[], [], [], [], [], none⟩ =
      ⟨.ok [], GuildModel.set_channel_stopped ⟨[], [], [], [], [], none⟩ 1,
       [.stopEnded], []⟩ := by
  exact ⟨speaker_left_voice_forced_stop _ _ _ _ _ rfl,
    speaker_left_voice_forced_stop _ _ _ _ _ rfl⟩

/-- Claim C4: when media resolution fails (unsupported source, no
results, or generic failure), the play and replace handlers surface a
typed outcome and leave the Guild Model (queue, flags and vote state) and
the speaker pool exactly as they were, performing no pool operation. -/
theorem resolve_failure_is_pure (d : ModelDelegate)
    (playOk : Song → Option BackendError) (u : UserId) (m : GuildModel)
    (sp : GuildSpeakers) (res : Except BackendError (List Song))
    (h : (∃ e, res = .error e) ∨ res = .ok []) :
    (handle_queue_play_command d res playOk u m sp).model = m ∧
    (handle_queue_play_command d res playOk u m sp).speakers = sp ∧
    (handle_queue_play_command d res playOk u m sp).ops = [] ∧
    (handle_replace_command d res playOk u m sp).model = m ∧
    (handle_replace_command d res playOk u m sp).speakers = sp ∧
    (handle_replace_command d res playOk u m sp).ops = [] ∧
    ((handle_queue_play_command d res playOk u m sp).result =
        .ok [.Response .UnsupportedSiteError] ∨
     (handle_queue_play_command d res playOk u m sp).result =
        .ok [.Response .NoMatchingSongsError] ∨
     (∃ e, (handle_queue_play_command d res playOk u m sp).result =
        .error (.Backend e))) ∧
    ((handle_replace_command d res playOk u m sp).result =
        .ok [.Response .UnsupportedSiteError] ∨
     (handle_replace_command d res playOk u m sp).result =
        .ok [.Response .NoMatchingSongsError] ∨
     (∃ e, (handle_replace_command d res playOk u m sp).result =
        .error (.Backend e))) := by
  rcases h with ⟨e, rfl⟩ | rfl
  · cases e <;> simp [handle_queue_play_command, handle_replace_command]
  · simp [handle_queue_play_command, handle_replace_command]

/-- Witness for `resolve_failure_is_pure`: an unsupported-source failure
against a model with a queued item leaves the model and pool intact. -/
theorem resolve_failure_is_pure_witness :
    (handle_queue_play_command ⟨fun _ => some 1, fun _ => [1]⟩
        (.error .UnsupportedUrl) (fun _ => none) 1
        ⟨[⟨⟨"a", "ua", 1⟩⟩], [], [], [], [], none⟩ ⟨[⟨none, .Idle⟩]⟩).model =
      ⟨[⟨⟨"a", "ua", 1⟩⟩], [], [], [], [], none⟩ ∧
    (handle_replace_command ⟨fun _ => some 1, fun _ => [1]⟩
        (.error .UnsupportedUrl) (fun _ => none) 1
        ⟨[⟨⟨"a", "ua", 1⟩⟩], [], [], [], [], none⟩ ⟨[⟨none, .Idle⟩]⟩).model =
      ⟨[⟨⟨"a", "ua", 1⟩⟩], [], [], [], [], none⟩ := by
  have h := resolve_failure_is_pure ⟨fun _ => some 1, fun _ => [1]⟩
    (fun _ => none) 1 ⟨[⟨⟨"a", "ua", 1⟩⟩], [], [], [], [], none⟩
    ⟨[⟨none, .Idle⟩]⟩ (.error .UnsupportedUrl) (Or.inl ⟨_, rfl⟩)
  exact ⟨h.1, h.2.2.2.1⟩

/-- Claim C6: for a play command whose speaker pool is exhausted
(`find_to_play_in_channel` returns none), the items the command just
enqueued stay in the queue unchanged — the final model is exactly the
push of the resolved items, no next-entry selection happens, no pool
operation is made, and the command reports queued-no-speakers. -/
theorem speaker_pool_exhausted_keeps_queue (d : ModelDelegate)
    (playOk : Song → Option BackendError) (u : UserId) (m : GuildModel)
    (sp : GuildSpeakers) (s0 : Song) (srest : List Song) (ch : ChannelId)
    (hch : d.get_user_voice_channel u = some ch)
    (hfind : sp.find_to_play_in_channel ch = none) :
    handle_queue_play_command d (.ok (s0 :: srest)) playOk u m sp =
      ⟨.ok [.Response (queuedNoSpeakersMessage
          (if (s0 :: srest).length = 1 then .Single s0.metadata
           else .Multiple (s0 :: srest).length))],
       m.push_entries u (s0 :: srest), sp, []⟩ ∧
    (m.push_entries u (s0 :: srest)).queue = m.queue ++ (s0 :: srest) := by
  exact ⟨by simp [handle_queue_play_command, hch, hfind], rfl⟩

/-- Witness for `speaker_pool_exhausted_keeps_queue`: the only speaker is
busy in another channel, so the single resolved item stays queued. -/
theorem speaker_pool_exhausted_keeps_queue_witness :
    handle_queue_play_command ⟨fun _ => some 1, fun _ => [1]⟩
        (.ok [⟨⟨"a", "ua", 1⟩⟩]) (fun _ => none) 1
        ⟨[], [], [], [], [], none⟩ ⟨[⟨some 2, .Playing ⟨"x", "ux", 9⟩⟩]⟩ =
      ⟨.ok [.Response (.QueuedNoSpeakers "a" "ua")],
       GuildModel.push_entries ⟨[], [], [], [], [], none⟩ 1 [⟨⟨"a", "ua", 1⟩⟩],
       ⟨[⟨some 2, .Playing ⟨"x", "ux", 9⟩⟩]⟩, []⟩ := by
  have h := speaker_pool_exhausted_keeps_queue ⟨fun _ => some 1, fun _ => [1]⟩
    (fun _ => none) 1 ⟨[], [], [], [], [], none⟩
    ⟨[⟨some 2, .Playing ⟨"x", "ux", 9⟩⟩]⟩ ⟨⟨"a", "ua", 1⟩⟩ [] 1 rfl (by decide)
  exact h.1

/-- Claim C10: for a replace command resolving to several items, only the
first resolved item goes through `replace_entry`; all remaining items are
appended to the queue via `push_entries` in resolution order, whatever
status `replace_entry` reported. -/
theorem replace_extra_items_appended (d : ModelDelegate)
    (playOk : Song → Option BackendError) (u : UserId) (m : GuildModel)
    (sp : GuildSpeakers) (song : Song) (songs_rest : List Song) :
    (handle_replace_command d (.ok (song :: songs_rest)) playOk u m sp).queuedModel =
      some ((m.replace_entry u (d.get_user_voice_channel u) song).2.push_entries
        u songs_rest) ∧
    (handle_replace_command d (.ok (song :: songs_rest)) playOk u m sp).replaceStatus =
      some (m.replace_entry u (d.get_user_voice_channel u) song).1 ∧
    ((m.replace_entry u (d.get_user_voice_channel u) song).2.push_entries
        u songs_rest).queue =
      (m.replace_entry u (d.get_user_voice_channel u) song).2.queue ++ songs_rest := by
  refine ⟨?_, ?_, rfl⟩ <;>
  · rcases hrep : m.replace_entry u (d.get_user_voice_channel u) song with ⟨st, m1⟩
    cases st with
    | Queued => simp [handle_replace_command, hrep]
    | ReplacedInQueue old => simp [handle_replace_command, hrep]
    | ReplacedCurrent ch =>
      cases hf : sp.find_active_in_channel ch with
      | none => simp [handle_replace_command, hrep, hf]
      | some ap =>
        obtain ⟨idx, pm⟩ := ap
        cases hnx : (m1.push_entries u songs_rest).next_channel_entry_finished d ch with
        | none => simp [handle_replace_command, hrep, hf, hnx]
        | some nxt =>
          obtain ⟨ns, m3⟩ := nxt
          cases hp : playOk ns with
          | none =>
            by_cases hurl : ns.metadata.url = song.metadata.url <;>
              simp [handle_replace_command, hrep, hf, hnx, play_to_speaker, hp, hurl]
          | some e =>
            simp [handle_replace_command, hrep, hf, hnx, play_to_speaker, hp]

/-- Claim C7 (amended): when the Guild Model reports a channel active but
the pool has no active speaker there, the skip handler returns
`ModelPlayingSpeakerNotDesync` for every non-NothingPlaying vote status,
and the replace handler returns it when `replace_entry` reported
`ReplacedCurrent`; the stop handler returns it only when the stop vote
succeeds — on AlreadyVoted or NeedsMoreVotes it answers with the
vote-progress message without consulting the pool. In every desync-error
case nothing is mutated beyond what the request had already done (the
vote record for skip and stop; the queue updates for replace) and no pool
operation is performed. -/
theorem desync_yields_error :
    (∀ (d : ModelDelegate) (u : UserId) (m : GuildModel) (sp : GuildSpeakers)
       (ch : ChannelId) (st : VoteStatus) (m1 : GuildModel),
       d.get_user_voice_channel u = some ch →
       m.vote_for_skip d .Skip ch u = (st, m1) →
       st ≠ .NothingPlaying →
       sp.find_active_in_channel ch = none →
       handle_skip_command d u m sp =
         ⟨.error .ModelPlayingSpeakerNotDesync, m1, sp, []⟩) ∧
    (∀ (d : ModelDelegate) (u : UserId) (m : GuildModel) (sp : GuildSpeakers)
       (ch : ChannelId) (m1 : GuildModel),
       d.get_user_voice_channel u = some ch →
       m.vote_for_skip d .Stop ch u = (.Success, m1) →
       sp.find_active_in_channel ch = none →
       handle_stop_command d u m sp =
         ⟨.error .ModelPlayingSpeakerNotDesync, m1, sp, []⟩) ∧
    (∀ (d : ModelDelegate) (playOk : Song → Option BackendError) (u : UserId)
       (m : GuildModel) (sp : GuildSpeakers) (song : Song)
       (songs_rest : List Song) (ch : ChannelId),
       (m.replace_entry u (d.get_user_voice_channel u) song).1 =
         .ReplacedCurrent ch →
       sp.find_active_in_channel ch = none →
       handle_replace_command d (.ok (song :: songs_rest)) playOk u m sp =
         ⟨.error .ModelPlayingSpeakerNotDesync,
          (m.replace_entry u (d.get_user_voice_channel u) song).2.push_entries
            u songs_rest,
          sp, [],
          some ((m.replace_entry u (d.get_user_voice_channel u) song).2.push_entries
            u songs_rest),
          some (.ReplacedCurrent ch)⟩) := by
  refine ⟨?_, ?_, ?_⟩
  · intro d u m sp ch st m1 hch hvote hne hf
    cases st with
    | NothingPlaying => exact absurd rfl hne
    | Success => simp [handle_skip_command, hch, hvote, hf]
    | AlreadyVoted => simp [handle_skip_command, hch, hvote, hf]
    | NeedsMoreVotes n => simp [handle_skip_command, hch, hvote, hf]
  · intro d u m sp ch m1 hch hvote hf
    simp [handle_stop_command, hch, hvote, hf]
  · intro d playOk u m sp song songs_rest ch hrep hf
    rcases hpair : m.replace_entry u (d.get_user_voice_channel u) song with ⟨st, m1⟩
    rw [hpair] at hrep
    simp only [] at hrep
    subst hrep
    simp [handle_replace_command, hpair, hf]

/-- Witness for `desync_yields_error`: a solo listener's stop vote
succeeds while the pool has no active speaker, yielding the desync
error; similarly for skip, and for a replace that hit ReplacedCurrent. -/
theorem desync_yields_error_witness :
    handle_stop_command ⟨fun _ => some 5, fun _ => [1]⟩ 1
        ⟨[], [5], [], [], [], none⟩ ⟨[]⟩ =
      ⟨.error .ModelPlayingSpeakerNotDesync, ⟨[], [5], [], [], [], none⟩,
       ⟨[]⟩, []⟩ ∧
    handle_skip_command ⟨fun _ => some 5, fun _ => [1]⟩ 1
        ⟨[], [5], [], [], [], none⟩ ⟨[]⟩ =
      ⟨.error .ModelPlayingSpeakerNotDesync, ⟨[], [5], [], [], [], none⟩,
       ⟨[]⟩, []⟩ ∧
    handle_replace_command ⟨fun _ => some 5, fun _ => [1]⟩
        (.ok [⟨⟨"b", "ub", 1⟩⟩]) (fun _ => none) 1
        ⟨[], [5], [], [(5, ⟨"a", "ua", 1⟩)], [], none⟩ ⟨[]⟩ =
      ⟨.error .ModelPlayingSpeakerNotDesync,
       ⟨[⟨⟨"b", "ub", 1⟩⟩], [5], [], [(5, ⟨"a", "ua", 1⟩)], [], none⟩,
       ⟨[]⟩, [],
       some ⟨[⟨⟨"b", "ub", 1⟩⟩], [5], [], [(5, ⟨"a", "ua", 1⟩)], [], none⟩,
       some (.ReplacedCurrent 5)⟩ := by
  refine ⟨?_, ?_, ?_⟩
  · exact desync_yields_error.2.1 ⟨fun _ => some 5, fun _ => [1]⟩ 1
      ⟨[], [5], [], [], [], none⟩ ⟨[]⟩ 5 ⟨[], [5], [], [], [], none⟩
      rfl (by decide) rfl
  · exact desync_yields_error.1 ⟨fun _ => some 5, fun _ => [1]⟩ 1
      ⟨[], [5], [], [], [], none⟩ ⟨[]⟩ 5 .Success ⟨[], [5], [], [], [], none⟩
      rfl (by decide) (by decide) rfl
  · exact desync_yields_error.2.2 ⟨fun _ => some 5, fun _ => [1]⟩
      (fun _ => none) 1 ⟨[], [5], [], [(5, ⟨"a", "ua", 1⟩)], [], none⟩ ⟨[]⟩
      ⟨⟨"b", "ub", 1⟩⟩ [] 5 (by decide) rfl

/-- Counterexample to claim C7 as stated: for the stop command, a
non-NothingPlaying vote status (here AlreadyVoted, the model reporting
channel 5 active) combined with an empty speaker pool does not produce
`ModelPlayingSpeakerNotDesync` — the handler answers with the
vote-progress message without consulting the pool. -/
theorem desync_stop_counterexample :
    (GuildModel.vote_for_skip ⟨[], [5], [], [], [(VoteType.Stop, 5, 1)], none⟩
        ⟨fun _ => some 5, fun _ => [1, 2, 3]⟩ .Stop 5 1).1 = .AlreadyVoted ∧
    GuildSpeakers.find_active_in_channel ⟨[]⟩ 5 = none ∧
    handle_stop_command ⟨fun _ => some 5, fun _ => [1, 2, 3]⟩ 1
        ⟨[], [5], [], [], [(VoteType.Stop, 5, 1)], none⟩ ⟨[]⟩ =
      ⟨.ok [.Response (.StopAlreadyVotedError 5)],
       ⟨[], [5], [], [], [(VoteType.Stop, 5, 1)], none⟩, ⟨[]⟩, []⟩ ∧
    (handle_stop_command ⟨fun _ => some 5, fun _ => [1, 2, 3]⟩ 1
        ⟨[], [5], [], [], [(VoteType.Stop, 5, 1)], none⟩ ⟨[]⟩).result ≠
      .error .ModelPlayingSpeakerNotDesync := by
  exact ⟨by decide, rfl, by decide, by decide⟩

/-- Claim C8: pause and resume check `is_paused` before transitioning:
the pause operation is never performed on an already-paused speaker (the
command answers nothing-is-playing instead) and the unpause operation is
never performed on a speaker that is already playing (the command answers
already-playing instead). -/
theorem pause_unpause_caller_checked (d : ModelDelegate)
    (playOk : Song → Option BackendError) (u : UserId) (m : GuildModel)
    (sp : GuildSpeakers) :
    (∀ i, SpeakerOp.pauseOp i ∈ (handle_pause_command d u sp).ops →
       (sp.getSpeaker i).is_paused = false) ∧
    (∀ i, SpeakerOp.unpauseOp i ∈ (handle_unpause_command d playOk u m sp).ops →
       (sp.getSpeaker i).is_paused = true) ∧
    (∀ ch i md, d.get_user_voice_channel u = some ch →
       sp.find_active_in_channel ch = some (i, md) →
       (sp.getSpeaker i).is_paused = true →
       (handle_pause_command d u sp).result =
         .ok [.Response (.NothingIsPlayingError ch)]) ∧
    (∀ ch i md, d.get_user_voice_channel u = some ch →
       sp.find_active_in_channel ch = some (i, md) →
       (sp.getSpeaker i).is_paused = false →
       (handle_unpause_command d playOk u m sp).result =
         .ok [.Response (.AlreadyPlayingError ch)]) := by
  refine ⟨?_, ?_, ?_, ?_⟩
  · intro i hmem
    cases hd : d.get_user_voice_channel u with
    | none => simp [handle_pause_command, hd] at hmem
    | some ch =>
      cases hf : sp.find_active_in_channel ch with
      | none => simp [handle_pause_command, hd, hf] at hmem
      | some ap =>
        obtain ⟨idx, md⟩ := ap
        cases hp : (sp.getSpeaker idx).is_paused with
        | true => simp [handle_pause_command, hd, hf, hp] at hmem
        | false =>
          simp [handle_pause_command, hd, hf, hp] at hmem
          rwa [hmem]
  · intro i hmem
    cases hd : d.get_user_voice_channel u with
    | none => simp [handle_unpause_command, hd] at hmem
    | some ch =>
      cases hf : sp.find_active_in_channel ch with
      | some ap =>
        obtain ⟨idx, md⟩ := ap
        cases hp : (sp.getSpeaker idx).is_paused with
        | true =>
          simp [handle_unpause_command, hd, hf, hp] at hmem
          rwa [hmem]
        | false => simp [handle_unpause_command, hd, hf, hp] at hmem
      | none =>
        cases hplay : sp.find_to_play_in_channel ch with
        | none => simp [handle_unpause_command, hd, hf, hplay] at hmem
        | some spIdx =>
          rcases hnext : m.next_channel_entry d ch with ⟨ne, m1⟩
          cases ne with
          | AlreadyPlaying =>
            simp [handle_unpause_command, hd, hf, hplay, hnext] at hmem
          | NoneAvailable =>
            simp [handle_unpause_command, hd, hf, hplay, hnext] at hmem
          | Entry next_song =>
            cases hps : playOk next_song with
            | none =>
              simp [handle_unpause_command, hd, hf, hplay, hnext,
                play_to_speaker, hps] at hmem
            | some e =>
              simp [handle_unpause_command, hd, hf, hplay, hnext,
                play_to_speaker, hps] at hmem
  · intro ch i md hd hf hp
    simp [handle_pause_command, hd, hf, hp]
  · intro ch i md hd hf hp
    simp [handle_unpause_command, hd, hf, hp]

/-- Witness for `pause_unpause_caller_checked`: a playing speaker gets
paused (so it was not paused before), a paused speaker gets resumed (so
it was paused before), and the guarded outcomes are exercised. -/
theorem pause_unpause_caller_checked_witness :
    (GuildSpeakers.getSpeaker ⟨[⟨some 1, .Playing ⟨"a", "ua", 1⟩⟩]⟩ 0).is_paused =
      false ∧
    (GuildSpeakers.getSpeaker ⟨[⟨some 1, .Paused ⟨"a", "ua", 1⟩⟩]⟩ 0).is_paused =
      true ∧
    (handle_pause_command ⟨fun _ => some 1, fun _ => [1]⟩ 1
        ⟨[⟨some 1, .Paused ⟨"a", "ua", 1⟩⟩]⟩).result =
      .ok [.Response (.NothingIsPlayingError 1)] ∧
    (handle_unpause_command ⟨fun _ => some 1, fun _ => [1]⟩ (fun _ => none) 1
        ⟨[], [], [], [], [], none⟩ ⟨[⟨some 1, .Playing ⟨"a", "ua", 1⟩⟩]⟩).result =
      .ok [.Response (.AlreadyPlayingError 1)] := by
  refine ⟨?_, ?_, ?_, ?_⟩
  · exact (pause_unpause_caller_checked ⟨fun _ => some 1, fun _ => [1]⟩
      (fun _ => none) 1 ⟨[], [], [], [], [], none⟩
      ⟨[⟨some 1, .Playing ⟨"a", "ua", 1⟩⟩]⟩).1 0 (by decide)
  · exact (pause_unpause_caller_checked ⟨fun _ => some 1, fun _ => [1]⟩
      (fun _ => none) 1 ⟨[], [], [], [], [], none⟩
      ⟨[⟨some 1, .Paused ⟨"a", "ua", 1⟩⟩]⟩).2.1 0 (by decide)
  · exact (pause_unpause_caller_checked ⟨fun _ => some 1, fun _ => [1]⟩
      (fun _ => none) 1 ⟨[], [], [], [], [], none⟩
      ⟨[⟨some 1, .Paused ⟨"a", "ua", 1⟩⟩]⟩).2.2.1 1 0 ⟨"a", "ua", 1⟩
      rfl (by decide) (by decide)
  · exact (pause_unpause_caller_checked ⟨fun _ => some 1, fun _ => [1]⟩
      (fun _ => none) 1 ⟨[], [], [], [], [], none⟩
      ⟨[⟨some 1, .Playing ⟨"a", "ua", 1⟩⟩]⟩).2.2.2 1 0 ⟨"a", "ua", 1⟩
      rfl (by decide) (by decide)

end Mrvn
